import Mathlib

/-!
Verification of the Toy entity from src/demos/physics/toy.js.

The Toy class is a physically animated object: it owns a physical body
component, a mouse joint (the pointer drag constraint), and a pair of
sprites (index 0 = default image, index 1 = mouse-over image).  Its
mouse event handlers translate raw pointer events into constraint
activation, sprite selection and force application.

The embedding below is a direct state-passing translation of the
JavaScript handlers.  Effects on collaborators are made explicit as
fields of the state:
  - the mouse joint inserted into the physics world is counted by
    `worldConstraints` (startSimulation inserts one instance,
    stopSimulation removes one);
  - the joint target point, which toy.js never writes, is `jointTarget`;
  - the last force handed to the physics component, together with the
    location it was applied at, is `lastForce`;
  - the hover flag is the boolean the event wiring passes to
    `mouseOver` (true on the mouseover event, false on mouseout),
    tracked explicitly as `hoverState`.
-/

/-- A 2D point or vector with exact integer coordinates, standing in for
the engine Point2D and Vector2D values used by the toy. -/
structure Point2D where
  x : Int
  y : Int
deriving Repr, DecidableEq

/-- Subtraction of 2D vectors, as Vector2D.sub in the engine. -/
def Point2D.sub (a b : Point2D) : Point2D :=
  ⟨a.x - b.x, a.y - b.y⟩

/-- Scalar multiplication of a 2D vector, as Vector2D.mul in the engine. -/
def Point2D.mul (a : Point2D) (k : Int) : Point2D :=
  ⟨a.x * k, a.y * k⟩

/-- The observable state of one Toy entity together with its footprint on
its collaborators (physics world, render component). -/
structure ToyState where
  mouseButtonDown : Bool
  hoverState : Bool
  spriteIdx : Nat
  worldConstraints : Nat
  jointTarget : Option Point2D
  pos : Point2D
  lastForce : Option (Point2D × Point2D)
deriving Repr, DecidableEq

/-- Effect of mouseJoint.startSimulation: the joint is inserted into the
physics world, adding one constraint instance. -/
def startSimulation (s : ToyState) : ToyState :=
  { s with worldConstraints := s.worldConstraints + 1 }

/-- Effect of mouseJoint.stopSimulation: the joint is removed from the
physics world. -/
def stopSimulation (s : ToyState) : ToyState :=
  { s with worldConstraints := s.worldConstraints - 1 }

/-- Toy.mouseDown from toy.js: starts the joint on a fresh press, stops
it on a release while pressed, then records the new button state. -/
def mouseDown (state : Bool) (s : ToyState) : ToyState :=
  let s1 :=
    if state && !s.mouseButtonDown then startSimulation s
    else if s.mouseButtonDown && !state then stopSimulation s
    else s
  { s1 with mouseButtonDown := state }

/-- Toy.mouseOver from toy.js: selects sprite 1 when the pointer is over
the toy and sprite 0 otherwise, and, when the button is down and the
pointer leaves, forwards to mouseDown(false). -/
def mouseOver (state : Bool) (s : ToyState) : ToyState :=
  let s1 := { s with hoverState := state, spriteIdx := if state then 1 else 0 }
  if s1.mouseButtonDown && !state then mouseDown false s1 else s1

/-- Toy.mouseMove from toy.js: the handler tests mouseButtonDown but its
body is empty (a commented-out line), so it changes nothing. -/
def mouseMove (mInfo : Point2D) (s : ToyState) : ToyState :=
  if s.mouseButtonDown then s else s

/-- Toy.applyForce from toy.js: hands the force to the physics component
together with this.getPosition(); the loc argument is not used. -/
def applyForce (amt : Point2D) (loc : Point2D) (s : ToyState) : ToyState :=
  { s with lastForce := some (amt, s.pos) }

/-- Toy.clicked from toy.js: builds the force vector
(p - position) * 200 and applies it through applyForce. -/
def clicked (p : Point2D) (s : ToyState) : ToyState :=
  applyForce ((p.sub s.pos).mul 200) p s

/-- The five pointer events the constructor wires to the handlers. -/
inductive ToyEvent where
  | mouseover
  | mouseout
  | mousedown
  | mouseup
  | mousemove (p : Point2D)
deriving Repr, DecidableEq

/-- Dispatch of one wired event, exactly as the addEvent registrations in
the constructor route them. -/
def step (e : ToyEvent) (s : ToyState) : ToyState :=
  match e with
  | .mouseover => mouseOver true s
  | .mouseout => mouseOver false s
  | .mousedown => mouseDown true s
  | .mouseup => mouseDown false s
  | .mousemove p => mouseMove p s

/-- Applying a sequence of pointer events in order. -/
def run (evs : List ToyEvent) (s : ToyState) : ToyState :=
  evs.foldl (fun a e => step e a) s

/-- The state of a freshly constructed Toy: button up, sprite 0 selected,
the mouse joint created but not yet inserted into the world, no target,
position (50, 0), no force applied yet. -/
def initToy : ToyState :=
  { mouseButtonDown := false
    hoverState := false
    spriteIdx := 0
    worldConstraints := 0
    jointTarget := none
    pos := ⟨50, 0⟩
    lastForce := none }

/-- The isDragging query of the spec: the mouseButtonDown flag. -/
def isDragging (s : ToyState) : Bool :=
  s.mouseButtonDown

/-- The coupling invariant between the drag flag and the physics world:
the joint is inserted exactly when the button is down. -/
def dragInv (s : ToyState) : Prop :=
  s.worldConstraints = if s.mouseButtonDown then 1 else 0

theorem dragInv_step (e : ToyEvent) (s : ToyState) (h : dragInv s) :
    dragInv (step e s) := by
  cases e <;>
    cases s <;>
    rename_i mbd _ _ _ _ _ _ <;>
    cases mbd <;>
    simp_all [dragInv, step, mouseOver, mouseDown, mouseMove,
      startSimulation, stopSimulation]

theorem dragInv_run (evs : List ToyEvent) (s : ToyState) (h : dragInv s) :
    dragInv (run evs s) := by
  induction evs generalizing s with
  | nil => exact h
  | cons e tl ih => exact ih (step e s) (dragInv_step e s h)

/-- The coupling invariant between the hover flag and the selected
sprite: the selected index is determined by the last enter or leave. -/
def spriteInv (s : ToyState) : Prop :=
  s.spriteIdx = if s.hoverState then 1 else 0

theorem spriteInv_step (e : ToyEvent) (s : ToyState) (h : spriteInv s) :
    spriteInv (step e s) := by
  cases e <;>
    cases s <;>
    rename_i mbd hov _ _ _ _ _ <;>
    cases mbd <;>
    simp_all [spriteInv, step, mouseOver, mouseDown, mouseMove,
      startSimulation, stopSimulation]

theorem spriteInv_run (evs : List ToyEvent) (s : ToyState) (h : spriteInv s) :
    spriteInv (run evs s) := by
  induction evs generalizing s with
  | nil => exact h
  | cons e tl ih => exact ih (step e s) (spriteInv_step e s h)

theorem run_append (a b : List ToyEvent) (s : ToyState) :
    run (a ++ b) s = run b (run a s) := by
  simp [run, List.foldl_append]

theorem mouseDown_false_idem (s : ToyState) :
    mouseDown false (mouseDown false s) = mouseDown false s := by
  cases s
  rename_i mbd _ _ _ _ _ _
  cases mbd <;> simp [mouseDown, stopSimulation]

theorem press_press_count (s : ToyState) (h : dragInv s) :
    (mouseDown true (mouseDown true s)).worldConstraints = 1 := by
  cases s
  rename_i mbd _ _ _ _ _ _
  cases mbd <;>
    simp_all [dragInv, mouseDown, startSimulation, stopSimulation]

/-- C1: after every sequence of pointer events on a freshly constructed
toy, the mouse joint is inserted in the world (exactly one constraint
instance) if and only if mouseButtonDown is true: the handlers keep the
drag flag and the constraint in lock step. -/
theorem drag_constraint_never_diverge (evs : List ToyEvent) :
    (run evs initToy).worldConstraints = 1 ↔
      (run evs initToy).mouseButtonDown = true := by
  have h := dragInv_run evs initToy rfl
  unfold dragInv at h
  cases hm : (run evs initToy).mouseButtonDown <;> rw [hm] at h <;> simp [h]

/-- C2 counterexample: toy.js mouseMove has an empty body, so after
mousedown followed by mousemove at (10, 5) the joint target has not been
set to (10, 5) by the entity, even though the drag flag is on. -/
theorem mousemove_no_target_update :
    (run [ToyEvent.mousedown, ToyEvent.mousemove ⟨10, 5⟩] initToy).jointTarget ≠
      some ⟨10, 5⟩ ∧
    isDragging (run [ToyEvent.mousedown, ToyEvent.mousemove ⟨10, 5⟩] initToy) =
      true := by
  decide

/-- C2 amended: a pointerMove while dragging is a defined no-op: the
handler tests the drag flag but changes nothing, so the whole entity
state (the joint target included) is unchanged, while isDragging stays
true after a press followed by a move. -/
theorem mousemove_noop (p : Point2D) (s : ToyState) :
    mouseMove p s = s ∧
    isDragging (run [ToyEvent.mousedown, ToyEvent.mousemove p] initToy) =
      true := by
  constructor
  · simp [mouseMove]
  · rfl

/-- C3 counterexample: pressing and then moving the pointer off the toy
does release the drag in toy.js: mouseOver(false) forwards to
mouseDown(false), so the drag flag is cleared and the joint removed. -/
theorem mouseout_releases_drag_cex :
    (run [ToyEvent.mousedown, ToyEvent.mouseout] initToy).mouseButtonDown =
      false ∧
    (run [ToyEvent.mousedown, ToyEvent.mouseout] initToy).worldConstraints =
      0 := by
  decide

/-- C3 amended: from any reachable dragging state, a pointerLeave event
is an implicit release: the drag flag becomes false, the joint is removed
from the world, and the visual reverts to image 0. -/
theorem mouseout_releases_drag (evs : List ToyEvent)
    (h : (run evs initToy).mouseButtonDown = true) :
    (step ToyEvent.mouseout (run evs initToy)).mouseButtonDown = false ∧
    (step ToyEvent.mouseout (run evs initToy)).worldConstraints = 0 ∧
    (step ToyEvent.mouseout (run evs initToy)).spriteIdx = 0 := by
  have hinv := dragInv_run evs initToy rfl
  unfold dragInv at hinv
  rw [h] at hinv
  cases hs : run evs initToy
  rw [hs] at h hinv
  simp_all [step, mouseOver, mouseDown, stopSimulation]

theorem mouseout_releases_drag_check :
    (run [ToyEvent.mousedown] initToy).mouseButtonDown = true ∧
    ((step ToyEvent.mouseout (run [ToyEvent.mousedown] initToy)).mouseButtonDown =
        false ∧
      (step ToyEvent.mouseout (run [ToyEvent.mousedown] initToy)).worldConstraints =
        0 ∧
      (step ToyEvent.mouseout (run [ToyEvent.mousedown] initToy)).spriteIdx =
        0) :=
  ⟨rfl, mouseout_releases_drag [ToyEvent.mousedown] rfl⟩

/-- C4: a pointerLeave event always clears the hover flag, selects image
0 and leaves the button up; when the button was down it acts as an
implicit release, removing the joint from the world. -/
theorem mouseout_effect (s : ToyState) :
    (mouseOver false s).hoverState = false ∧
    (mouseOver false s).spriteIdx = 0 ∧
    (mouseOver false s).mouseButtonDown = false ∧
    (s.mouseButtonDown = true →
      (mouseOver false s).worldConstraints = s.worldConstraints - 1) := by
  cases s
  rename_i mbd _ _ _ _ _ _
  cases mbd <;> simp [mouseOver, mouseDown, stopSimulation]

theorem mouseout_effect_check :
    (mouseDown true initToy).mouseButtonDown = true ∧
    (mouseOver false (mouseDown true initToy)).hoverState = false ∧
    (mouseOver false (mouseDown true initToy)).spriteIdx = 0 ∧
    (mouseOver false (mouseDown true initToy)).mouseButtonDown = false ∧
    (mouseOver false (mouseDown true initToy)).worldConstraints =
      (mouseDown true initToy).worldConstraints - 1 := by
  have h := mouseout_effect (mouseDown true initToy)
  exact ⟨rfl, h.1, h.2.1, h.2.2.1, h.2.2.2 rfl⟩

/-- The outcome signalled to the caller when construction fails. -/
inductive ConstructionError where
  | bodyCreationFailed
deriving Repr, DecidableEq

/-- The footprint an entity leaves in the physics world: how many bodies
and how many inserted constraints it has put there. -/
structure PhysWorld where
  bodies : Nat
  constraints : Nat
deriving Repr, DecidableEq

/-- Modelled from the spec: failure-capable body factories and the
ConstructionError type are not under src/ (toy.js declares
createPhysicalBody as an empty overridable hook and the constructor has
no handler, so a factory failure propagates out of construction).  The
definition follows the toy.js constructor order: every step before the
createPhysicalBody call touches no physics-world state; the factory
either adds the body or fails; the mouse joint is created only after the
factory succeeded and is not inserted into the world at creation.  On
failure the caller receives the error and no entity value. -/
def createToy (w : PhysWorld) (factoryOk : Bool) :
    Except ConstructionError ToyState × PhysWorld :=
  if factoryOk then
    (Except.ok initToy, { w with bodies := w.bodies + 1 })
  else
    (Except.error ConstructionError.bodyCreationFailed, w)

/-- C5: when the body factory fails, createToy surfaces a
ConstructionError, no entity value is produced, and the physics world is
exactly as before: no body and no constraint was added. -/
theorem createToy_fail_atomic (w : PhysWorld) :
    (createToy w false).1 =
      Except.error ConstructionError.bodyCreationFailed ∧
    (createToy w false).2 = w :=
  ⟨rfl, rfl⟩

/-- C6: in every reachable state the selected image index is exactly the
pure function of the hover flag (0 when not hovered, 1 when hovered),
whatever the drag flag did, and the index always names one of the two
images. -/
theorem sprite_pure_function_of_hover (evs : List ToyEvent) :
    (run evs initToy).spriteIdx =
      (if (run evs initToy).hoverState then 1 else 0) ∧
    (run evs initToy).spriteIdx < 2 := by
  have h := spriteInv_run evs initToy rfl
  unfold spriteInv at h
  refine ⟨h, ?_⟩
  rw [h]
  cases (run evs initToy).hoverState <;> simp

/-- C7: from any reachable state, two presses in a row leave exactly one
constraint instance in the world, and two releases in a row produce the
same state as a single release. -/
theorem start_stop_idempotent (evs : List ToyEvent) :
    (run (evs ++ [ToyEvent.mousedown, ToyEvent.mousedown])
        initToy).worldConstraints = 1 ∧
    run (evs ++ [ToyEvent.mouseup, ToyEvent.mouseup]) initToy =
      run (evs ++ [ToyEvent.mouseup]) initToy := by
  have hinv := dragInv_run evs initToy rfl
  constructor
  · rw [run_append]
    exact press_press_count (run evs initToy) hinv
  · rw [run_append, run_append]
    exact mouseDown_false_idem (run evs initToy)

/-- C8: clicked(p) records the force (p - position) * 200 applied at the
body position; with the body at the origin and a click at (5, 0) the
force is (1000, 0), magnitude 1000 along the positive x axis. -/
theorem clicked_force (p : Point2D) (s : ToyState) :
    (clicked p s).lastForce = some ((p.sub s.pos).mul 200, s.pos) ∧
    (clicked ⟨5, 0⟩ { s with pos := ⟨0, 0⟩ }).lastForce =
      some (⟨1000, 0⟩, ⟨0, 0⟩) := by
  constructor
  · rfl
  · simp [clicked, applyForce, Point2D.sub, Point2D.mul]

/-- C9: a release with no unmatched press is a defined no-op: when the
button is already up, mouseDown(false) calls nothing on the joint and
leaves the whole entity state unchanged; every handler is a total
function, so no event raises an error. -/
theorem release_without_press_noop (s : ToyState)
    (h : s.mouseButtonDown = false) :
    mouseDown false s = s := by
  cases s
  simp_all [mouseDown, stopSimulation]

theorem release_without_press_noop_check :
    initToy.mouseButtonDown = false ∧ mouseDown false initToy = initToy :=
  ⟨rfl, release_without_press_noop initToy rfl⟩

/-- C10: applyForce ignores its location argument: the force is always
applied at the body position, so any two locations give the same
result. -/
theorem applyForce_ignores_loc (amt loc1 loc2 : Point2D) (s : ToyState) :
    applyForce amt loc1 s = applyForce amt loc2 s :=
  rfl
